import Mathlib

/-!
Shallow embedding of the mechanic-shop Flask API (B1-SE/BE1_Mechanic_Shop_Assignment)
for verification of its specification.

Database tables are modelled as Lean lists of records; `db.session.get(Model, pk)`
is modelled as `List.find?` on the primary key; SQLAlchemy relationship collections
(`service_ticket.mechanics`, `service_ticket.inventory_parts`) are modelled as lists
of the related rows' primary keys.  Request handlers become pure functions from the
request data and the table state to an HTTP status, a response body, and the table
state after the request.
-/

namespace MechShop

/-! ## String primitives

Python string operations used by the handlers, implemented by structural
recursion over the character list of a string (so that every definition
evaluates inside the kernel). -/

/-- Python `s.split(sep)` for a one-character separator (also the behaviour of
`str.split(" ")` used by the guards): splits at every occurrence, keeping empty
fields; the empty string yields `[""]`. -/
def pySplitChars (sep : Char) : List Char → List (List Char)
  | [] => [[]]
  | c :: rest =>
    match pySplitChars sep rest with
    | [] => [[c]]
    | f :: fs => if c = sep then [] :: f :: fs else (c :: f) :: fs

/-- `pySplitChars` lifted to strings. -/
def pySplit (s : String) (sep : Char) : List String :=
  (pySplitChars sep s.data).map String.mk

/-- Whether the first list begins with the second. -/
def headMatches {α : Type} [DecidableEq α] : List α → List α → Bool
  | _, [] => true
  | [], _ :: _ => false
  | a :: as, b :: bs => a = b && headMatches as bs

/-- Whether `pat` occurs as a contiguous sublist of `hay`. -/
def containsSubChars (hay pat : List Char) : Bool :=
  headMatches hay pat ||
    (match hay with
     | [] => false
     | _ :: rest => containsSubChars rest pat)

/-- Python `s.lower()` (ASCII case folding, as in the handlers' usage). -/
def strToLower (s : String) : String := ⟨s.data.map Char.toLower⟩

/-- Lexicographic comparison of character lists (the order of a SQL text
column). -/
def charListLe : List Char → List Char → Bool
  | [], _ => true
  | _ :: _, [] => false
  | a :: as, b :: bs => if a = b then charListLe as bs else decide (a < b)

/-! ## Data model (src/app/models) -/

/-- `app/models/mechanic.py`: columns id (pk), name, email, phone, salary. -/
structure Mechanic where
  id : Nat
  name : String
  email : String
  phone : Option String := none
  salary : Option ℚ := none
deriving Repr, DecidableEq

/-- `app/models/customer.py`: columns id (pk), first_name, last_name, email,
phone_number, password_hash. -/
structure Customer where
  id : Nat
  first_name : String
  last_name : String
  email : String
  phone_number : Option String := none
  address : Option String := none
  password_hash : String := ""
deriving Repr, DecidableEq

/-- `app/models/inventory.py`: columns id (pk), name, price.  The source stores
price as a SQL float; it is modelled as a rational number. -/
structure Inventory where
  id : Nat
  name : String
  price : ℚ
deriving Repr, DecidableEq

/-- `app/models/service_ticket.py` together with the relationship collections used
by the service-ticket routes: `mechanics` is the many-to-many association with
`Mechanic` (modelled as the list of associated mechanic ids, one entry per
association row) and `inventory_parts` the association with `Inventory`. -/
structure ServiceTicket where
  id : Nat
  customer_id : Nat
  description : String := ""
  service_date : String := ""
  mechanics : List Nat := []
  inventory_parts : List Nat := []
deriving Repr, DecidableEq

/-- `db.session.get(Mechanic, i)` / `Mechanic.query.get(i)`. -/
def getMechanic (ms : List Mechanic) (i : Nat) : Option Mechanic :=
  ms.find? (fun m => m.id == i)

/-- `db.session.get(Customer, i)` / `Customer.query.get(i)`. -/
def getCustomer (cs : List Customer) (i : Nat) : Option Customer :=
  cs.find? (fun c => c.id == i)

/-- `db.session.get(ServiceTicket, i)`. -/
def getTicket (ts : List ServiceTicket) (i : Nat) : Option ServiceTicket :=
  ts.find? (fun t => t.id == i)

/-- `db.session.get(Inventory, i)`. -/
def getInventory (xs : List Inventory) (i : Nat) : Option Inventory :=
  xs.find? (fun x => x.id == i)

/-- Committing an in-place mutation of the ticket with id `i`: the stored row is
replaced by the mutated object. -/
def replaceTicket (ts : List ServiceTicket) (i : Nat) (t' : ServiceTicket) :
    List ServiceTicket :=
  ts.map (fun u => if u.id == i then t' else u)

/-! ## Bulk mechanic edit (`edit_ticket_mechanics`,
`src/app/blueprints/service_tickets/routes.py` lines 149-231)

The handler appends, for every processed id, exactly one f-string either to
`changes_made` or to `errors`.  The log entries are modelled as a small inductive
type carrying exactly the data interpolated into the source's f-strings, together
with a rendering function reproducing those strings verbatim; `changes_made` and
`errors` are the rendered projections of the single processing log. -/

/-- One recorded outcome of processing a single id in the bulk edit. -/
inductive EditEntry where
  | removedOk (name : String) (id : Nat)
  | addedOk (name : String) (id : Nat)
  | notFoundRemoval (id : Nat)
  | notFoundAddition (id : Nat)
  | notAssigned (name : String) (id : Nat)
  | alreadyAssigned (name : String) (id : Nat)
deriving Repr, DecidableEq

/-- The exact f-strings of `edit_ticket_mechanics`. -/
def renderEntry : EditEntry → String
  | .removedOk n i => s!"Removed mechanic {n} (ID: {i})"
  | .addedOk n i => s!"Added mechanic {n} (ID: {i})"
  | .notFoundRemoval i => s!"Mechanic with ID {i} not found for removal."
  | .notFoundAddition i => s!"Mechanic with ID {i} not found for addition."
  | .notAssigned n i => s!"Mechanic {n} (ID: {i}) was not assigned to this ticket."
  | .alreadyAssigned n i => s!"Mechanic {n} (ID: {i}) is already assigned to this ticket."

/-- Entries appended to `changes_made` (as opposed to `errors`). -/
def isChange : EditEntry → Bool
  | .removedOk _ _ => true
  | .addedOk _ _ => true
  | _ => false

/-- The evolving state of the two processing loops: the ticket's `mechanics`
collection plus the log of recorded outcomes (in processing order). -/
structure EditState where
  assigned : List Nat
  log : List EditEntry
deriving Repr, DecidableEq

/-- `mechanics_map = {m.id: m for m in Mechanic.query.filter(Mechanic.id.in_(all_ids))}`
followed by `mechanics_map.get(i)`: the batch is the table filtered to the
referenced ids; a Python dict comprehension keeps the last binding for a repeated
key, hence the lookup takes the last matching row. -/
def mechanicsMapGet (ms : List Mechanic) (allIds : List Nat) (i : Nat) :
    Option Mechanic :=
  ((ms.filter (fun m => m.id ∈ allIds)).reverse).find? (fun m => m.id == i)

/-- The removal-loop body of `edit_ticket_mechanics` (lines 189-198). -/
def removeStep (look : Nat → Option Mechanic) (st : EditState) (i : Nat) : EditState :=
  match look i with
  | none => { st with log := st.log ++ [.notFoundRemoval i] }
  | some m =>
    if m.id ∈ st.assigned then
      { assigned := st.assigned.erase m.id, log := st.log ++ [.removedOk m.name i] }
    else
      { st with log := st.log ++ [.notAssigned m.name i] }

/-- The addition-loop body of `edit_ticket_mechanics` (lines 201-210). -/
def addStep (look : Nat → Option Mechanic) (st : EditState) (i : Nat) : EditState :=
  match look i with
  | none => { st with log := st.log ++ [.notFoundAddition i] }
  | some m =>
    if m.id ∈ st.assigned then
      { st with log := st.log ++ [.alreadyAssigned m.name i] }
    else
      { assigned := st.assigned ++ [m.id], log := st.log ++ [.addedOk m.name i] }

/-- The removal loop, run first over every id of `remove_ids`. -/
def editRemovalPhase (look : Nat → Option Mechanic) (assigned : List Nat)
    (removeIds : List Nat) : EditState :=
  removeIds.foldl (removeStep look) ⟨assigned, []⟩

/-- The addition loop, run second, over the state left by the removal loop. -/
def editAddPhase (look : Nat → Option Mechanic) (st : EditState)
    (addIds : List Nat) : EditState :=
  addIds.foldl (addStep look) st

/-- Request body of `PUT /service-tickets/<id>/edit`; `json_data.get("add_ids", [])`
and `json_data.get("remove_ids", [])` each default to the empty list.  The source
converts each list to a Python `set`; the sets are modelled by deduplicated lists
(only membership, distinctness and cardinality of a set are ever used). -/
structure EditBody where
  add_ids : List Nat := []
  remove_ids : List Nat := []
deriving Repr, DecidableEq

/-- The single batch lookup over `add_ids ∪ remove_ids` used by both loops. -/
def editLook (ms : List Mechanic) (b : EditBody) : Nat → Option Mechanic :=
  mechanicsMapGet ms ((b.add_ids.dedup ++ b.remove_ids.dedup).dedup)

/-- Both processing loops of the bulk edit: removals first, then additions. -/
def editProcess (ms : List Mechanic) (assigned : List Nat) (b : EditBody) : EditState :=
  editAddPhase (editLook ms b)
    (editRemovalPhase (editLook ms b) assigned b.remove_ids.dedup)
    b.add_ids.dedup

/-- The `changes_made` response list. -/
def changesOf (st : EditState) : List String :=
  (st.log.filter (fun e => isChange e)).map renderEntry

/-- The `errors` response list. -/
def errorsOf (st : EditState) : List String :=
  (st.log.filter (fun e => !isChange e)).map renderEntry

/-- Response body of `edit_ticket_mechanics`. -/
inductive EditResponse where
  | ticketNotFound
  | noInput
  | noIds
  | done (changes errors : List String) (finalAssigned : List Nat)
deriving Repr, DecidableEq

/-- `edit_ticket_mechanics` (lines 149-231): 404 when the ticket is missing, 400
when the body is absent/empty, 400 when neither `add_ids` nor `remove_ids` holds
an id; otherwise removals then additions are processed and the status is chosen
by `if not errors: 200 elif changes_made: 207 else: 400`.  A `commit` happens
only when `changes_made` is non-empty; since an empty `changes_made` implies no
collection was mutated, the returned table state is the one with the processed
ticket stored in both cases. -/
def edit_ticket_mechanics (ms : List Mechanic) (ts : List ServiceTicket)
    (ticket_id : Nat) (body : Option EditBody) :
    Nat × EditResponse × List ServiceTicket :=
  match getTicket ts ticket_id with
  | none => (404, .ticketNotFound, ts)
  | some t =>
    match body with
    | none => (400, .noInput, ts)
    | some b =>
      if b.add_ids.dedup = [] ∧ b.remove_ids.dedup = [] then
        (400, .noIds, ts)
      else
        let st := editProcess ms t.mechanics b
        let changes := changesOf st
        let errors := errorsOf st
        let status := if errors = [] then 200 else if ¬ changes = [] then 207 else 400
        (status, .done changes errors st.assigned,
          replaceTicket ts ticket_id { t with mechanics := st.assigned })

/-! ## Token service and access guards (`src/app/utils/auth.py`, `src/app/auth.py`)

The JWT library (PyJWT in `app/utils/auth.py`, python-jose in `app/auth.py`) is an
external collaborator.  Its behaviour is modelled from the spec (§4.1): a token
string either fails signature/structure verification, or carries a claim set
{subject id, role, issued-at, expiry}; a verified token whose expiry lies in the
past fails with an expired-token error.  The verification environment is a
parameter `parse : String → Option JwtClaims` giving the claims of each token
string whose signature verifies under the server secret. -/

/-- Modelled from the spec: the decoded claim set of a token (§3 Token, §4.1). -/
structure JwtClaims where
  sub : Nat
  exp : Int
  iat : Int := 0
  role : Option String := none
deriving Repr, DecidableEq

/-- Outcome of the library-level decode of a token string. -/
inductive JwtOutcome where
  | payload (c : JwtClaims)
  | expiredError
  | invalidError
deriving Repr, DecidableEq

/-- Modelled from the spec: library JWT decode.  Signature/structure failure →
invalid-token error; expiry in the past at validation time → expired-token error;
otherwise the claim set is returned (§4.1 `validate`). -/
def jwtDecode (parse : String → Option JwtClaims) (now : Int) (tok : String) :
    JwtOutcome :=
  match parse tok with
  | none => .invalidError
  | some c => if c.exp < now then .expiredError else .payload c

/-- Result of `decode_token` in `app/utils/auth.py` (lines 38-61): the customer id
on success, else one of the error strings of the `except` arms. -/
inductive DecodeResult where
  | customerId (n : Nat)
  | message (s : String)
deriving Repr, DecidableEq

/-- `decode_token` (`app/utils/auth.py` lines 38-61): maps the library outcome to
`int(payload['sub'])`, `'Token has expired'` (ExpiredSignatureError) or
`'Invalid token'` (InvalidTokenError). -/
def decode_token (parse : String → Option JwtClaims) (now : Int) (tok : String) :
    DecodeResult :=
  match jwtDecode parse now tok with
  | .payload c => .customerId c.sub
  | .expiredError => .message "Token has expired"
  | .invalidError => .message "Invalid token"

/-- Outcome of token extraction in `token_required` of `app/utils/auth.py`
(lines 75-94): `token = auth_header.split(" ")[1]` inside try/except IndexError,
then `if not token`. -/
inductive Extracted where
  | ok (token : String)
  | badFormat
  | missing
deriving Repr, DecidableEq

/-- Token extraction of `app/utils/auth.py`: when the Authorization header is
present, the token is the second space-separated field, whatever the first field
is; a header with no second field raises IndexError (401 invalid format); a
missing header or an empty second field leaves `token` falsy (401 missing). -/
def extractToken_utils : Option String → Extracted
  | none => .missing
  | some h =>
    match (pySplit h ' ').get? 1 with
    | none => .badFormat
    | some t => if t = "" then .missing else .ok t

/-- Token extraction of `app/auth.py` `token_required` (lines 60-68): the token is
taken only when the header starts with `"Bearer "`; otherwise `token` stays
`None` and the guard rejects with 401. -/
def extractToken_app : Option String → Option String
  | none => none
  | some h =>
    if headMatches h.data "Bearer ".data then
      match (pySplit h ' ').get? 1 with
      | none => none
      | some t => if t = "" then none else some t
    else none

/-- A guard either rejects with a status and a JSON body (modelled as a key-value
list) without running the wrapped handler, or runs the handler. -/
inductive GuardOutcome (α : Type) where
  | reject (status : Nat) (body : List (String × String))
  | run (a : α)
deriving Repr, DecidableEq

/-- `token_required` of `app/utils/auth.py` (lines 64-116): extraction, decode,
customer resolution; on success the decoded integer customer id is passed to the
wrapped function as its first positional argument. -/
def token_required_utils {α : Type} (parse : String → Option JwtClaims) (now : Int)
    (customers : List Customer) (authHeader : Option String) (f : Nat → α) :
    GuardOutcome α :=
  match extractToken_utils authHeader with
  | .badFormat =>
    .reject 401 [("error", "Invalid authorization header format"),
      ("message", "Expected format: Bearer <token>")]
  | .missing =>
    .reject 401 [("error", "Token is missing"),
      ("message", "Please provide a valid authorization token")]
  | .ok tok =>
    match decode_token parse now tok with
    | .message m => .reject 401 [("error", "Token validation failed"), ("message", m)]
    | .customerId cid =>
      match getCustomer customers cid with
      | none =>
        .reject 401 [("error", "Invalid customer"),
          ("message", "Customer associated with token not found")]
      | some _ => .run (f cid)

/-- `token_required` of `app/auth.py` (lines 50-90): Bearer-only extraction, jose
decode (any JWTError, expired included, → 401 invalid; the `str(e)` detail
appended to the message is not modelled), customer resolution.  The decoded
`payload["sub"]` is passed to the handler as keyword `customer_id`. -/
def token_required_app {α : Type} (parse : String → Option JwtClaims) (now : Int)
    (customers : List Customer) (authHeader : Option String) (f : Nat → α) :
    GuardOutcome α :=
  match extractToken_app authHeader with
  | none => .reject 401 [("message", "Token is missing!")]
  | some tok =>
    match jwtDecode parse now tok with
    | .expiredError => .reject 401 [("message", "Token is invalid!")]
    | .invalidError => .reject 401 [("message", "Token is invalid!")]
    | .payload c =>
      match getCustomer customers c.sub with
      | none => .reject 401 [("message", "User not found!")]
      | some _ => .run (f c.sub)

/-! ## Customer self-service routes (`src/app/routes/customers.py`)

`update_customer(current_customer, customer_id)` and
`delete_customer(current_customer, customer_id)` read `current_customer.id`.
Python is dynamically typed: the guard that wraps them (`token_required` of
`app/utils/auth.py`, the module the route file imports) passes the decoded
integer id as that first positional argument, not a Customer object.  The sum
type `PyPrincipal` records which of the two a caller supplies, and
`principalDotId` models the attribute access `current_customer.id`, which
succeeds on a Customer object and raises AttributeError on a bare int. -/

/-- The value bound to the handler parameter `current_customer`. -/
inductive PyPrincipal where
  | customerObj (c : Customer)
  | bareId (n : Nat)
deriving Repr, DecidableEq

/-- The attribute access `current_customer.id`: an int has no attribute `id`,
so the access raises AttributeError (modelled as `none`). -/
def principalDotId : PyPrincipal → Option Nat
  | .customerObj c => some c.id
  | .bareId _ => none

/-- Modelled from the spec: `validate_email` of the missing module
`app/utils/util.py` (imported by `app/routes/customers.py`).  The spec requires
an email-pattern check (§4.3); the sibling revision `app/routes/mechanics.py`
defines the same-named helper as the anchored regex
`[a-zA-Z0-9._%+-]+@[a-zA-Z0-9.-]+\.[a-zA-Z]{2,}`, which is modelled here
(the regex-dollar quirk of also matching before one trailing newline is not
modelled). -/
def isEmailLocalChar (c : Char) : Bool :=
  c.isAlphanum || c = '.' || c = '_' || c = '%' || c = '+' || c = '-'

/-- Characters admitted in the domain part of the e-mail pattern. -/
def isEmailDomainChar (c : Char) : Bool :=
  c.isAlphanum || c = '.' || c = '-'

/-- Modelled from the spec: the e-mail pattern check (see `isEmailLocalChar`). -/
def validate_email (s : String) : Bool :=
  match pySplit s '@' with
  | [loc, dom] =>
    let tld := (pySplit dom '.').getLastD ""
    loc ≠ "" && loc.data.all isEmailLocalChar &&
    dom.data.all isEmailDomainChar &&
    (pySplit dom '.').length ≥ 2 &&
    tld.length ≥ 2 && tld.data.all Char.isAlpha &&
    dom.length ≥ tld.length + 2
  | _ => false

/-- Request body of `PUT /customers/<id>`; every field optional. -/
structure CustomerUpdateBody where
  first_name : Option String := none
  last_name : Option String := none
  email : Option String := none
  phone_number : Option String := none
  address : Option String := none
  password : Option String := none
deriving Repr, DecidableEq

/-- Response body of `update_customer`. -/
inductive CustomerUpdateOut where
  | unauthorized
  | notFound
  | invalidEmail
  | emailExists
  | serverError (msg : String)
  | ok (c : Customer)
deriving Repr, DecidableEq

/-- `update_customer` (`app/routes/customers.py` lines 142-210).  The ownership
check `current_customer.id != customer_id` runs first and returns 403 before any
read of the payload; when `current_customer` is a bare int the attribute access
raises AttributeError, caught by the blanket `except` → rollback → 500.  Field
mutations before `commit` are session-local, so every non-200 return leaves the
stored table unchanged. -/
def update_customer (hash : String → String) (cs : List Customer)
    (current_customer : PyPrincipal) (customer_id : Nat)
    (body : Option CustomerUpdateBody) :
    Nat × CustomerUpdateOut × List Customer :=
  match principalDotId current_customer with
  | none =>
    (500, .serverError "AttributeError on current_customer.id", cs)
  | some pid =>
    if pid ≠ customer_id then (403, .unauthorized, cs)
    else
      match getCustomer cs customer_id with
      | none => (404, .notFound, cs)
      | some c =>
        match body with
        | none => (500, .serverError "TypeError: argument of type NoneType", cs)
        | some d =>
          let emailBad : Bool :=
            match d.email with
            | some e => ! validate_email e
            | none => false
          if emailBad then
            (400, .invalidEmail, cs)
          else
            let dup : Bool :=
              match d.email with
              | none => false
              | some e =>
                match cs.find? (fun x => x.email == e) with
                | some x => x.id ≠ customer_id
                | none => false
            if dup then (409, .emailExists, cs)
            else
              let c' : Customer :=
                { c with
                  first_name := d.first_name.getD c.first_name,
                  last_name := d.last_name.getD c.last_name,
                  email := d.email.getD c.email,
                  phone_number :=
                    match d.phone_number with
                    | some v => some v
                    | none => c.phone_number,
                  address :=
                    match d.address with
                    | some v => some v
                    | none => c.address,
                  password_hash :=
                    match d.password with
                    | some p => hash p
                    | none => c.password_hash }
              (200, .ok c', cs.map (fun u => if u.id == customer_id then c' else u))

/-- Response body of `delete_customer`. -/
inductive CustomerDeleteOut where
  | unauthorized
  | notFound
  | serverError (msg : String)
  | deleted
deriving Repr, DecidableEq

/-- `delete_customer` (`app/routes/customers.py` lines 213-251): same ownership
check first, then the row is deleted and the deletion committed. -/
def delete_customer (cs : List Customer) (current_customer : PyPrincipal)
    (customer_id : Nat) : Nat × CustomerDeleteOut × List Customer :=
  match principalDotId current_customer with
  | none =>
    (500, .serverError "AttributeError on current_customer.id", cs)
  | some pid =>
    if pid ≠ customer_id then (403, .unauthorized, cs)
    else
      match getCustomer cs customer_id with
      | none => (404, .notFound, cs)
      | some _ => (200, .deleted, cs.eraseP (fun x => x.id == customer_id))

/-- The route as wired in the repository: `app/routes/customers.py` imports
`token_required` from `app/utils/auth.py`, whose wrapper ends in
`return f(customer_id, *args, **kwargs)` — the decoded integer id is the first
positional argument, bound to the handler parameter `current_customer`. -/
def update_customer_route (hash : String → String)
    (parse : String → Option JwtClaims) (now : Int) (cs : List Customer)
    (authHeader : Option String) (customer_id : Nat)
    (body : Option CustomerUpdateBody) :
    GuardOutcome (Nat × CustomerUpdateOut × List Customer) :=
  token_required_utils parse now cs authHeader
    (fun cid => update_customer hash cs (PyPrincipal.bareId cid) customer_id body)

/-- `DELETE /customers/<id>` composed with the same guard. -/
def delete_customer_route (parse : String → Option JwtClaims) (now : Int)
    (cs : List Customer) (authHeader : Option String) (customer_id : Nat) :
    GuardOutcome (Nat × CustomerDeleteOut × List Customer) :=
  token_required_utils parse now cs authHeader
    (fun cid => delete_customer cs (PyPrincipal.bareId cid) customer_id)

/-! ## Mechanic CRUD (`src/app/blueprints/mechanics/routes.py`)

The blueprint registered by `create_app` (`app/__init__.py` line 63). -/

/-- Raw JSON body of the mechanic create/update routes. -/
structure MechanicBodyRaw where
  name : Option String := none
  email : Option String := none
  phone : Option String := none
  salary : Option ℚ := none
deriving Repr, DecidableEq

/-- The fields carried by the object that a successful schema load returns. -/
structure MechanicLoaded where
  name : String
  email : String
  phone : Option String := none
  salary : Option ℚ := none
deriving Repr, DecidableEq

/-- `mechanic_schema.load(json_data)` (blueprint `MechanicSchema`,
`SQLAlchemyAutoSchema` over the model with `load_instance = True`): `name` and
`email` correspond to non-nullable columns and are required, the rest optional;
a missing required field raises ValidationError (`none` here).  Because of
`load_instance = True` a successful load returns a transient `Mechanic` MODEL
INSTANCE carrying these fields — not a field dictionary — which is what the
routes then try to use as a dict. -/
def loadMechanic (b : MechanicBodyRaw) : Option MechanicLoaded :=
  match b.name, b.email with
  | some n, some e => some ⟨n, e, b.phone, b.salary⟩
  | _, _ => none

/-- The `str(e)` of the TypeError raised by subscripting a model instance
(`mechanic_data['email']`, `create_mechanic` line 27). -/
def mechanicSubscriptError : String :=
  "\x27Mechanic\x27 object is not subscriptable"

/-- The `str(e)` of the AttributeError raised by `mechanic_data.items()`
(`update_mechanic` line 78) on a model instance. -/
def mechanicItemsError : String :=
  "\x27Mechanic\x27 object has no attribute \x27items\x27"

/-- Response body of `create_mechanic`: `exceptMsg` is the blanket
`except Exception` 400 body `{'message': str(e)}`. -/
inductive MechCreateOut where
  | noInput
  | validationErr
  | exceptMsg (s : String)
deriving Repr, DecidableEq

/-- `create_mechanic` (`app/blueprints/mechanics/routes.py` lines 15-41).  After
a successful load, line 27 evaluates `mechanic_data['email']` on the loaded
`Mechanic` instance (`load_instance = True`), which raises TypeError; the
blanket `except Exception` rolls back and returns 400 with `str(e)`.  The
duplicate check and the insert on lines 27-36 are therefore unreachable for
every well-formed body, and the table is never changed. -/
def create_mechanic (ms : List Mechanic) (body : Option MechanicBodyRaw) :
    Nat × MechCreateOut × List Mechanic :=
  match body with
  | none => (400, .noInput, ms)
  | some raw =>
    match loadMechanic raw with
    | none => (400, .validationErr, ms)
    | some _ => (400, .exceptMsg mechanicSubscriptError, ms)

/-- Response body of the blueprint `update_mechanic`: `exceptMsg` is the blanket
`except Exception` 400 body `{'message': str(e)}`. -/
inductive MechUpdateOut where
  | notFound
  | noInput
  | exceptMsg (s : String)
deriving Repr, DecidableEq

/-- `update_mechanic` (`app/blueprints/mechanics/routes.py` lines 62-87): the
partial load (no required field, known fields only) always succeeds and — with
`load_instance = True` — returns a `Mechanic` instance; line 78 then calls
`mechanic_data.items()` on it, which raises AttributeError; the blanket
`except Exception` rolls back and returns 400 with `str(e)`.  The `setattr`
loop and the commit are unreachable, so no update ever changes a stored
mechanic, and no email-uniqueness re-check of any kind runs. -/
def update_mechanic (ms : List Mechanic) (mechanic_id : Nat)
    (body : Option MechanicBodyRaw) : Nat × MechUpdateOut × List Mechanic :=
  match getMechanic ms mechanic_id with
  | none => (404, .notFound, ms)
  | some _ =>
    match body with
    | none => (400, .noInput, ms)
    | some _ => (400, .exceptMsg mechanicItemsError, ms)

/-! ## Single relationship assignment
(`src/app/blueprints/service_tickets/routes.py` lines 66-147 and 234-269) -/

/-- Response body of the assignment routes. -/
inductive AssignOut where
  | errorMsg (s : String)
  | conflictMsg (s : String)
  | okMsg (s : String) (ticket : ServiceTicket)
deriving Repr, DecidableEq

/-- `assign_mechanic_to_ticket` (lines 66-109): 404s for a missing ticket or
mechanic, a 400 no-op when the pair already exists, otherwise the pair is
appended and committed. -/
def assign_mechanic_to_ticket (ms : List Mechanic) (ts : List ServiceTicket)
    (ticket_id mechanic_id : Nat) : Nat × AssignOut × List ServiceTicket :=
  match getTicket ts ticket_id with
  | none => (404, .errorMsg "Service ticket not found", ts)
  | some t =>
    match getMechanic ms mechanic_id with
    | none => (404, .errorMsg "Mechanic not found", ts)
    | some m =>
      if m.id ∈ t.mechanics then
        (400, .conflictMsg "Mechanic already assigned to this service ticket", ts)
      else
        let t' := { t with mechanics := t.mechanics ++ [m.id] }
        (200, .okMsg s!"Mechanic {m.name} assigned to service ticket {ticket_id}" t',
          replaceTicket ts ticket_id t')

/-- `add_inventory_to_ticket` (lines 234-269): the same shape over the
ticket-inventory relation. -/
def add_inventory_to_ticket (xs : List Inventory) (ts : List ServiceTicket)
    (ticket_id inventory_id : Nat) : Nat × AssignOut × List ServiceTicket :=
  match getTicket ts ticket_id with
  | none => (404, .errorMsg "Service ticket not found", ts)
  | some t =>
    match getInventory xs inventory_id with
    | none => (404, .errorMsg "Inventory item not found", ts)
    | some x =>
      if x.id ∈ t.inventory_parts then
        (400, .conflictMsg "Inventory item already added to this service ticket", ts)
      else
        let t' := { t with inventory_parts := t.inventory_parts ++ [x.id] }
        (200,
          .okMsg ("Inventory item \x27" ++ x.name ++ "\x27 added to service ticket "
            ++ toString ticket_id) t',
          replaceTicket ts ticket_id t')

/-! ## Service-ticket creation (`src/app/blueprints/service_tickets/routes.py`
lines 16-56) -/

/-- Request body of `POST /service-tickets/`. -/
structure TicketCreateBody where
  description : Option String := none
  service_date : Option String := none
  mechanic_ids : List Nat := []
deriving Repr, DecidableEq

/-- Modelled from the spec: the blueprint-local module
`app/blueprints/service_tickets/schemas.py` imported by the routes is missing
from the sources.  Its schema is modelled after the spec's ServiceTicket entity
and the identically named `ServiceTicketSchema` of `src/app/schemas/service_ticket.py`:
`description` required with length 1-500, `service_date` a required datetime
(kept as an opaque string), `mechanic_ids` an integer list with load-default [],
`customer_id` excluded by `partial=("mechanics", "customer_id")`. -/
def loadTicketCreate (b : TicketCreateBody) : Option (String × String × List Nat) :=
  match b.description, b.service_date with
  | some d, some sd =>
    if 1 ≤ d.length ∧ d.length ≤ 500 then some (d, sd, b.mechanic_ids) else none
  | _, _ => none

/-- Autoincremented primary key for a ticket insert. -/
def nextTicketId (ts : List ServiceTicket) : Nat :=
  (ts.foldl (fun a t => max a t.id) 0) + 1

/-- Response body of `create_service_ticket`: on success the route returns only
the serialized ticket (its attached mechanics included) — there is no error or
warning field on the 201 path. -/
inductive TicketCreateOut where
  | noInput
  | validationErr
  | created (t : ServiceTicket)
deriving Repr, DecidableEq

/-- `create_service_ticket` (lines 16-56): the customer id comes from the token;
`for mechanic_id in set(mechanic_ids)` looks each id up and appends the mechanic
only when the lookup succeeds — an unknown id is skipped with no record of any
kind — then the ticket is inserted and returned with 201. -/
def create_service_ticket (ms : List Mechanic) (ts : List ServiceTicket)
    (customer_id : Nat) (body : Option TicketCreateBody) :
    Nat × TicketCreateOut × List ServiceTicket :=
  match body with
  | none => (400, .noInput, ts)
  | some raw =>
    match loadTicketCreate raw with
    | none => (400, .validationErr, ts)
    | some (d, sd, mids) =>
      let attached := mids.dedup.filter (fun i => (getMechanic ms i).isSome)
      let t : ServiceTicket :=
        { id := nextTicketId ts, customer_id := customer_id, description := d,
          service_date := sd, mechanics := attached, inventory_parts := [] }
      (201, .created t, ts ++ [t])

/-! ## Inventory listing (`src/app/blueprints/inventory/routes.py` lines 82-146) -/

/-- The sortable mapped columns of the Inventory model. -/
inductive SortCol where
  | byId
  | byName
  | byPrice
deriving Repr, DecidableEq

/-- An attribute of the Inventory model class, as resolved by
`getattr(Inventory, sort_by, Inventory.id)`: a mapped column, or a non-column
attribute (the relationship, methods, SQLAlchemy class machinery) on which the
later `.asc()`/`.desc()` call raises. -/
inductive InvClassAttr where
  | column (c : SortCol)
  | nonColumn
deriving Repr, DecidableEq

/-- Attribute resolution on the Inventory class: the three mapped columns, a
representative set of its non-column attributes, and `none` for names that are
no attribute at all (for which `getattr` returns the `Inventory.id` default). -/
def inventoryGetattr (s : String) : Option InvClassAttr :=
  if s = "id" then some (.column .byId)
  else if s = "name" then some (.column .byName)
  else if s = "price" then some (.column .byPrice)
  else if s ∈ ["service_tickets", "to_dict", "query", "metadata", "registry"] then
    some .nonColumn
  else none

/-- `Inventory.name.ilike(f"%{name}%")`: case-insensitive substring match. -/
def ilikeContains (hay pat : String) : Bool :=
  containsSubChars (strToLower hay).data (strToLower pat).data

/-- The `name` filter; the walrus guard `if name := request.args.get("name")`
skips the filter for an absent or empty value. -/
def applyNameFilter (p : Option String) (xs : List Inventory) : List Inventory :=
  match p with
  | some n => if n = "" then xs else xs.filter (fun x => ilikeContains x.name n)
  | none => xs

/-- The `min_price` filter; the walrus guard treats the float 0.0 as falsy, so a
zero bound also skips the filter. -/
def applyMinPrice (p : Option ℚ) (xs : List Inventory) : List Inventory :=
  match p with
  | some q => if q = 0 then xs else xs.filter (fun x => q ≤ x.price)
  | none => xs

/-- The `max_price` filter, with the same falsy-zero quirk. -/
def applyMaxPrice (p : Option ℚ) (xs : List Inventory) : List Inventory :=
  match p with
  | some q => if q = 0 then xs else xs.filter (fun x => x.price ≤ q)
  | none => xs

/-- Comparison of two rows on a sort column (ascending). -/
def colKeyLe (c : SortCol) (a b : Inventory) : Bool :=
  match c with
  | .byId => decide (a.id ≤ b.id)
  | .byName => charListLe a.name.data b.name.data
  | .byPrice => decide (a.price ≤ b.price)

/-- Insertion into a list sorted by `le`. -/
def insertLe {α : Type} (le : α → α → Bool) (x : α) : List α → List α
  | [] => [x]
  | y :: ys => if le x y then x :: y :: ys else y :: insertLe le x ys

/-- `ORDER BY` over the in-memory table (insertion sort; the engine's order on
equal keys is unspecified either way). -/
def sortByKey {α : Type} (le : α → α → Bool) : List α → List α
  | [] => []
  | x :: xs => insertLe le x (sortByKey le xs)

/-- Query parameters of `GET /inventory/`, already parsed: Werkzeug's
`request.args.get(key, default, type=...)` yields the default for an absent or
unparsable value, so each field holds the parsed value or `none`. -/
structure InvListParams where
  name : Option String := none
  min_price : Option ℚ := none
  max_price : Option ℚ := none
  sort_by : Option String := none
  sort_order : Option String := none
  page : Option Int := none
  per_page : Option Int := none
deriving Repr, DecidableEq

/-- The pagination metadata of the response. -/
structure PageMeta where
  page : Int
  per_page : Int
  total_items : Nat
  total_pages : Nat
deriving Repr, DecidableEq

/-- Response body of `get_inventory_items`. -/
inductive InvListOut where
  | ok (items : List Inventory) (meta : PageMeta)
  | failure (msg : String)
deriving Repr, DecidableEq

/-- `get_inventory_items` (lines 82-146): filters, then
`sort_column = getattr(Inventory, sort_by, Inventory.id)` with `sort_by`
defaulting to `"id"` and `sort_order` to `"asc"`, then
`page = args.get("page", 1)`, `per_page = min(args.get("per_page", 10), 100)`
and `paginate(page=page, per_page=per_page, error_out=False)`, which replaces a
page below 1 by 1 and a per_page below 1 by its default 20.  A non-column
attribute as sort column makes `.asc()`/`.desc()` raise, reaching the blanket
`except` → 500. -/
def get_inventory_items (xs : List Inventory) (p : InvListParams) :
    Nat × InvListOut :=
  let q3 := applyMaxPrice p.max_price (applyMinPrice p.min_price
    (applyNameFilter p.name xs))
  let sort_by := p.sort_by.getD "id"
  let descOrder := strToLower (p.sort_order.getD "asc") = "desc"
  let col : Option SortCol :=
    match inventoryGetattr sort_by with
    | some (.column c) => some c
    | none => some .byId
    | some .nonColumn => none
  match col with
  | none => (500, .failure "Failed to retrieve inventory items")
  | some c =>
    let sorted :=
      if descOrder then sortByKey (fun a b => colKeyLe c b a) q3
      else sortByKey (colKeyLe c) q3
    let page0 := p.page.getD 1
    let pp1 : Int := min (p.per_page.getD 10) 100
    let page := if page0 < 1 then 1 else page0
    let per_page := if pp1 < 1 then 20 else pp1
    let items := (sorted.drop (((page - 1) * per_page).toNat)).take per_page.toNat
    let total := sorted.length
    let pages := (total + per_page.toNat - 1) / per_page.toNat
    (200, .ok items ⟨page, per_page, total, pages⟩)

/-! ## Helper lemmas -/

/-- A primary-key lookup returns a row carrying that key. -/
theorem getTicket_id {ts : List ServiceTicket} {i : Nat} {t : ServiceTicket}
    (h : getTicket ts i = some t) : t.id = i := by
  simpa using List.find?_some h

/-- A primary-key lookup returns a row carrying that key. -/
theorem getMechanic_id {ms : List Mechanic} {i : Nat} {m : Mechanic}
    (h : getMechanic ms i = some m) : m.id = i := by
  simpa using List.find?_some h

/-- A primary-key lookup returns a row carrying that key. -/
theorem getInventory_id {xs : List Inventory} {i : Nat} {x : Inventory}
    (h : getInventory xs i = some x) : x.id = i := by
  simpa using List.find?_some h

/-- After committing a replacement of the row with key `i`, looking `i` up again
returns the replacement. -/
theorem getTicket_replace {ts : List ServiceTicket} {i : Nat} {t : ServiceTicket}
    (t' : ServiceTicket) (h : getTicket ts i = some t) (ht' : t'.id = i) :
    getTicket (replaceTicket ts i t') i = some t' := by
  induction ts with
  | nil => simp [getTicket] at h
  | cons u us ih =>
    by_cases hu : u.id = i
    · simp [getTicket, replaceTicket, hu, ht']
    · have hu' : (u.id == i) = false := by simpa using hu
      rw [getTicket, List.find?] at h
      rw [hu'] at h
      have := ih h
      simp only [getTicket, replaceTicket, List.map, List.find?, hu'] at this ⊢
      simpa [hu'] using this

end MechShop

namespace MechShop

/-! ## Claim C1 -/

/-- C1: for every bulk mechanic edit reaching the processing loops (existing
ticket, non-empty body supplying at least one add or remove id), the status is
the three-way function of the computed `changes_made` and `errors` lists: no
errors → 200, changes and errors both present → 207, errors only → 400. -/
theorem c1_bulk_edit_three_way_status (ms : List Mechanic) (ts : List ServiceTicket)
    (ticket_id : Nat) (b : EditBody) (t : ServiceTicket)
    (ht : getTicket ts ticket_id = some t)
    (hne : ¬(b.add_ids.dedup = [] ∧ b.remove_ids.dedup = [])) :
    ∃ (status : Nat) (changes errors : List String) (fin : List Nat)
      (ts' : List ServiceTicket),
      edit_ticket_mechanics ms ts ticket_id (some b) =
        (status, .done changes errors fin, ts') ∧
      (errors = [] → status = 200) ∧
      (changes ≠ [] → errors ≠ [] → status = 207) ∧
      (changes = [] → errors ≠ [] → status = 400) := by
  refine ⟨(if errorsOf (editProcess ms t.mechanics b) = [] then 200
        else if ¬ changesOf (editProcess ms t.mechanics b) = [] then 207 else 400),
      changesOf (editProcess ms t.mechanics b),
      errorsOf (editProcess ms t.mechanics b),
      (editProcess ms t.mechanics b).assigned,
      replaceTicket ts ticket_id
        { t with mechanics := (editProcess ms t.mechanics b).assigned },
      ?_, ?_, ?_, ?_⟩
  · simp only [edit_ticket_mechanics, ht, if_neg hne]
  · intro he
    simp [he]
  · intro hc he
    simp [hc, he]
  · intro hc he
    simp [hc, he]

/-- Witness for C1 at a concrete input. -/
theorem c1_bulk_edit_three_way_status_witness :
    getTicket [{ id := 1, customer_id := 4 }] 1 = some { id := 1, customer_id := 4 } ∧
    ¬((([5] : List Nat).dedup = []) ∧ (([] : List Nat).dedup = [])) ∧
    ∃ (status : Nat) (changes errors : List String) (fin : List Nat)
      (ts' : List ServiceTicket),
      edit_ticket_mechanics [] [{ id := 1, customer_id := 4 }] 1
          (some { add_ids := [5] }) =
        (status, .done changes errors fin, ts') ∧
      (errors = [] → status = 200) ∧
      (changes ≠ [] → errors ≠ [] → status = 207) ∧
      (changes = [] → errors ≠ [] → status = 400) :=
  ⟨by decide, by decide,
    c1_bulk_edit_three_way_status [] [{ id := 1, customer_id := 4 }] 1
      { add_ids := [5] } { id := 1, customer_id := 4 } (by decide) (by decide)⟩

/-! ## Claim C7 -/

/-- C7: assigning a mechanic (or an inventory part) to a ticket is idempotent in
effect: a fresh assignment leaves exactly one relationship row, and repeating the
same call changes no state and reports the non-destructive already-assigned
outcome. -/
theorem c7_assign_idempotent :
    (∀ (ms : List Mechanic) (ts : List ServiceTicket) (tid mid : Nat)
       (t : ServiceTicket) (m : Mechanic),
      getTicket ts tid = some t → getMechanic ms mid = some m →
      m.id ∉ t.mechanics →
      ∃ (t' : ServiceTicket) (ts' : List ServiceTicket),
        assign_mechanic_to_ticket ms ts tid mid =
          (200, .okMsg s!"Mechanic {m.name} assigned to service ticket {tid}" t', ts') ∧
        t'.mechanics.count m.id = 1 ∧
        assign_mechanic_to_ticket ms ts' tid mid =
          (400, .conflictMsg "Mechanic already assigned to this service ticket", ts')) ∧
    (∀ (xs : List Inventory) (ts : List ServiceTicket) (tid iid : Nat)
       (t : ServiceTicket) (x : Inventory),
      getTicket ts tid = some t → getInventory xs iid = some x →
      x.id ∉ t.inventory_parts →
      ∃ (t' : ServiceTicket) (ts' : List ServiceTicket),
        add_inventory_to_ticket xs ts tid iid =
          (200,
            .okMsg ("Inventory item \x27" ++ x.name ++ "\x27 added to service ticket "
              ++ toString tid) t', ts') ∧
        t'.inventory_parts.count x.id = 1 ∧
        add_inventory_to_ticket xs ts' tid iid =
          (400, .conflictMsg "Inventory item already added to this service ticket", ts')) := by
  constructor
  · intro ms ts tid mid t m ht hm hnot
    refine ⟨{ t with mechanics := t.mechanics ++ [m.id] },
      replaceTicket ts tid { t with mechanics := t.mechanics ++ [m.id] }, ?_, ?_, ?_⟩
    · simp only [assign_mechanic_to_ticket, ht, hm, if_neg hnot]
    · have h0 : t.mechanics.count m.id = 0 := List.count_eq_zero.mpr hnot
      simp [List.count_append, h0]
    · have ht' : getTicket (replaceTicket ts tid { t with mechanics := t.mechanics ++ [m.id] })
          tid = some { t with mechanics := t.mechanics ++ [m.id] } :=
        getTicket_replace _ ht (by simpa using getTicket_id ht)
      have hmem : m.id ∈ t.mechanics ++ [m.id] := by simp
      simp only [add_inventory_to_ticket, assign_mechanic_to_ticket, ht', hm, if_pos hmem]
  · intro xs ts tid iid t x ht hx hnot
    refine ⟨{ t with inventory_parts := t.inventory_parts ++ [x.id] },
      replaceTicket ts tid { t with inventory_parts := t.inventory_parts ++ [x.id] },
      ?_, ?_, ?_⟩
    · simp only [add_inventory_to_ticket, ht, hx, if_neg hnot]
    · have h0 : t.inventory_parts.count x.id = 0 := List.count_eq_zero.mpr hnot
      simp [List.count_append, h0]
    · have ht' : getTicket
          (replaceTicket ts tid { t with inventory_parts := t.inventory_parts ++ [x.id] })
          tid = some { t with inventory_parts := t.inventory_parts ++ [x.id] } :=
        getTicket_replace _ ht (by simpa using getTicket_id ht)
      have hmem : x.id ∈ t.inventory_parts ++ [x.id] := by simp
      simp only [add_inventory_to_ticket, ht', hx, if_pos hmem]

/-- Witness for C7 at a concrete input. -/
theorem c7_assign_idempotent_witness :
    getTicket [{ id := 3, customer_id := 1 }] 3 = some { id := 3, customer_id := 1 } ∧
    getMechanic [{ id := 9, name := "Mike", email := "m@x.com" }] 9 =
      some { id := 9, name := "Mike", email := "m@x.com" } ∧
    (9 : Nat) ∉ ({ id := 3, customer_id := 1 } : ServiceTicket).mechanics ∧
    ∃ (t' : ServiceTicket) (ts' : List ServiceTicket),
      assign_mechanic_to_ticket [{ id := 9, name := "Mike", email := "m@x.com" }]
          [{ id := 3, customer_id := 1 }] 3 9 =
        (200, .okMsg s!"Mechanic Mike assigned to service ticket 3" t', ts') ∧
      t'.mechanics.count 9 = 1 ∧
      assign_mechanic_to_ticket [{ id := 9, name := "Mike", email := "m@x.com" }] ts' 3 9 =
        (400, .conflictMsg "Mechanic already assigned to this service ticket", ts') :=
  ⟨by decide, by decide, by decide,
    c7_assign_idempotent.1 [{ id := 9, name := "Mike", email := "m@x.com" }]
      [{ id := 3, customer_id := 1 }] 3 9 { id := 3, customer_id := 1 }
      { id := 9, name := "Mike", email := "m@x.com" } (by decide) (by decide) (by decide)⟩

/-! ## Claim C10 -/

/-- C10: when a service-ticket creation request includes `mechanic_ids`, every id
with no matching mechanic is silently skipped: the ticket is still created and
returned with 201 carrying exactly the mechanics that exist, and the response
carries no error or warning about the unknown ids (the 201 body is the bare
serialized ticket). -/
theorem c10_create_ticket_skips_unknown_mechanics (ms : List Mechanic)
    (ts : List ServiceTicket) (customer_id : Nat) (raw : TicketCreateBody)
    (d sd : String) (mids : List Nat)
    (hload : loadTicketCreate raw = some (d, sd, mids)) :
    ∃ t : ServiceTicket,
      create_service_ticket ms ts customer_id (some raw) = (201, .created t, ts ++ [t]) ∧
      t.mechanics = mids.dedup.filter (fun i => (getMechanic ms i).isSome) ∧
      (∀ i ∈ mids, getMechanic ms i = none → i ∉ t.mechanics) := by
  refine ⟨{ id := nextTicketId ts, customer_id := customer_id, description := d,
            service_date := sd,
            mechanics := mids.dedup.filter (fun i => (getMechanic ms i).isSome),
            inventory_parts := [] }, ?_, rfl, ?_⟩
  · simp only [create_service_ticket, hload]
  · intro i _ hnone hmem
    have := List.of_mem_filter hmem
    simp [hnone] at this

/-- Witness for C10 at a concrete input: mechanic 1 exists, mechanic 42 does not. -/
theorem c10_create_ticket_skips_unknown_mechanics_witness :
    loadTicketCreate
        { description := some "oil change", service_date := some "2025-01-01",
          mechanic_ids := [1, 42] } =
      some ("oil change", "2025-01-01", [1, 42]) ∧
    ∃ t : ServiceTicket,
      create_service_ticket [{ id := 1, name := "Mike", email := "m@x.com" }] [] 7
          (some { description := some "oil change", service_date := some "2025-01-01",
                  mechanic_ids := [1, 42] }) = (201, .created t, [] ++ [t]) ∧
      t.mechanics = ([1, 42] : List Nat).dedup.filter
        (fun i => (getMechanic [{ id := 1, name := "Mike", email := "m@x.com" }] i).isSome) ∧
      (∀ i ∈ ([1, 42] : List Nat),
        getMechanic [{ id := 1, name := "Mike", email := "m@x.com" }] i = none →
        i ∉ t.mechanics) :=
  ⟨by decide,
    c10_create_ticket_skips_unknown_mechanics
      [{ id := 1, name := "Mike", email := "m@x.com" }] [] 7
      { description := some "oil change", service_date := some "2025-01-01",
        mechanic_ids := [1, 42] } "oil change" "2025-01-01" [1, 42] (by decide)⟩

/-! ## Claim C9 -/

/-- C9: the effective page size of the inventory listing never exceeds 100, and
when `per_page` is absent it defaults to 10 (at most 10 items, reported
`per_page` equal to 10). -/
theorem c9_per_page_cap (xs : List Inventory) (p : InvListParams)
    (status : Nat) (items : List Inventory) (meta : PageMeta)
    (h : get_inventory_items xs p = (status, .ok items meta)) :
    items.length ≤ 100 ∧
    (p.per_page = none → items.length ≤ 10 ∧ meta.per_page = 10) := by
  simp only [get_inventory_items] at h
  split at h
  · exact absurd h (by simp)
  · simp only [Prod.mk.injEq, InvListOut.ok.injEq] at h
    obtain ⟨hst, hit, hmeta⟩ := h
    have hcap : ((if (min (Option.getD p.per_page 10) 100 : Int) < 1 then (20 : Int)
        else min (Option.getD p.per_page 10) 100)).toNat ≤ 100 := by
      split <;> omega
    constructor
    · rw [← hit]
      exact le_trans (List.length_take_le _ _) hcap
    · intro hpp
      rw [hpp] at hit hmeta
      simp only [Option.getD_none] at hit hmeta
      norm_num at hit hmeta
      constructor
      · rw [← hit]
        exact le_trans (List.length_take_le _ _) (by norm_num)
      · rw [← hmeta]

/-- Witness for C9 at a concrete input (`per_page` absent). -/
theorem c9_per_page_cap_witness :
    get_inventory_items [{ id := 1, name := "Brake", price := 10 }] {} =
      (200, .ok [{ id := 1, name := "Brake", price := 10 }]
        { page := 1, per_page := 10, total_items := 1, total_pages := 1 }) ∧
    ([{ id := 1, name := "Brake", price := 10 }] : List Inventory).length ≤ 100 ∧
    (({} : InvListParams).per_page = none →
      ([{ id := 1, name := "Brake", price := 10 }] : List Inventory).length ≤ 10 ∧
      ({ page := 1, per_page := 10, total_items := 1, total_pages := 1 } : PageMeta).per_page
        = 10) :=
  ⟨by decide,
    c9_per_page_cap [{ id := 1, name := "Brake", price := 10 }] {} 200
      [{ id := 1, name := "Brake", price := 10 }]
      { page := 1, per_page := 10, total_items := 1, total_pages := 1 } (by decide)⟩

/-! ## Claim C8 -/

/-- C8 counterexample: `installed_on` names no sort field of the Inventory
model, yet the request is answered 200, not rejected with 400. -/
theorem c8_counterexample :
    (get_inventory_items [{ id := 1, name := "Brake", price := 10 }]
        { sort_by := some "installed_on" }).1 = 200 ∧
    (get_inventory_items [{ id := 1, name := "Brake", price := 10 }]
        { sort_by := some "installed_on" }).1 ≠ 400 := by decide

/-- C8 amended: a `sort_by` naming no attribute of the Inventory class is not
rejected — `getattr(Inventory, sort_by, Inventory.id)` silently falls back to
the id column, the response equals the one for `sort_by=id` and the status is
200; a `sort_by` naming a non-column attribute instead reaches the blanket
exception handler and yields 500.  No path returns 400 for an unknown sort
field. -/
theorem c8_unknown_sort_silently_defaults :
    (∀ (xs : List Inventory) (p : InvListParams) (s : String),
      p.sort_by = some s → inventoryGetattr s = none →
      get_inventory_items xs p = get_inventory_items xs { p with sort_by := some "id" } ∧
      (get_inventory_items xs p).1 = 200) ∧
    (∀ (xs : List Inventory) (p : InvListParams) (s : String),
      p.sort_by = some s → inventoryGetattr s = some .nonColumn →
      get_inventory_items xs p = (500, .failure "Failed to retrieve inventory items")) := by
  have hid : inventoryGetattr "id" = some (.column .byId) := by decide
  constructor
  · intro xs p s hs hu
    constructor
    · simp only [get_inventory_items, hs, Option.getD_some, hu, hid]
    · simp only [get_inventory_items, hs, Option.getD_some, hu]
  · intro xs p s hs hnc
    simp only [get_inventory_items, hs, Option.getD_some, hnc]

/-- Witness for C8's amended theorem at a concrete input. -/
theorem c8_unknown_sort_silently_defaults_witness :
    ({ sort_by := some "installed_on" } : InvListParams).sort_by = some "installed_on" ∧
    inventoryGetattr "installed_on" = none ∧
    (get_inventory_items [{ id := 1, name := "Brake", price := 10 }]
        { sort_by := some "installed_on" } =
      get_inventory_items [{ id := 1, name := "Brake", price := 10 }]
        { ({ sort_by := some "installed_on" } : InvListParams) with sort_by := some "id" } ∧
    (get_inventory_items [{ id := 1, name := "Brake", price := 10 }]
        { sort_by := some "installed_on" }).1 = 200) :=
  ⟨rfl, by decide,
    c8_unknown_sort_silently_defaults.1 [{ id := 1, name := "Brake", price := 10 }]
      { sort_by := some "installed_on" } "installed_on" rfl (by decide)⟩

/-! ## Claim C4 -/

/-- C4 counterexample: with mechanic `A@x.com` stored, creating the case-variant
duplicate `a@x.com` is not rejected as a duplicate — it fails with the blanket
400 subscript-TypeError body, exactly as the non-duplicate `unique@y.com` does,
so no duplicate detection (case-insensitive or otherwise) ever runs; and
updating mechanic 2 — whether to the exact duplicate `A@x.com` or to a fresh
email — fails the same way before any uniqueness re-check or field application,
leaving the table unchanged. -/
theorem c4_counterexample :
    create_mechanic [{ id := 1, name := "Ann", email := "A@x.com" }]
        (some { name := some "Bob", email := some "a@x.com" }) =
      (400, .exceptMsg mechanicSubscriptError,
        [{ id := 1, name := "Ann", email := "A@x.com" }]) ∧
    create_mechanic [{ id := 1, name := "Ann", email := "A@x.com" }]
        (some { name := some "Bob", email := some "unique@y.com" }) =
      (400, .exceptMsg mechanicSubscriptError,
        [{ id := 1, name := "Ann", email := "A@x.com" }]) ∧
    update_mechanic
        [{ id := 1, name := "Ann", email := "A@x.com" },
         { id := 2, name := "Bob", email := "b@y.com" }] 2
        (some { email := some "A@x.com" }) =
      (400, .exceptMsg mechanicItemsError,
        [{ id := 1, name := "Ann", email := "A@x.com" },
         { id := 2, name := "Bob", email := "b@y.com" }]) ∧
    update_mechanic
        [{ id := 1, name := "Ann", email := "A@x.com" },
         { id := 2, name := "Bob", email := "b@y.com" }] 2
        (some { email := some "fresh@z.com" }) =
      (400, .exceptMsg mechanicItemsError,
        [{ id := 1, name := "Ann", email := "A@x.com" },
         { id := 2, name := "Bob", email := "b@y.com" }]) := by
  refine ⟨by decide, by decide, by decide, by decide⟩

/-- C4 amended: in the registered mechanics blueprint no create or update of a
mechanic ever succeeds or performs any duplicate detection: the blueprint schema
loads a `Mechanic` model instance (`load_instance = True`) which the routes then
use as a dict, so every well-formed create body returns the blanket-except 400
with the subscript TypeError message before the (case-sensitive) duplicate check
runs, and every update of an existing mechanic returns the blanket-except 400
with the `.items()` AttributeError message before any re-check or field
application; the stored table is unchanged in both cases, so stored emails are
never compared, case-insensitively or otherwise. -/
theorem c4_mechanic_writes_always_fail :
    (∀ (ms : List Mechanic) (raw : MechanicBodyRaw) (d : MechanicLoaded),
      loadMechanic raw = some d →
      create_mechanic ms (some raw) = (400, .exceptMsg mechanicSubscriptError, ms)) ∧
    (∀ (ms : List Mechanic) (mid : Nat) (raw : MechanicBodyRaw) (m : Mechanic),
      getMechanic ms mid = some m →
      update_mechanic ms mid (some raw) = (400, .exceptMsg mechanicItemsError, ms)) := by
  constructor
  · intro ms raw d hload
    simp only [create_mechanic, hload]
  · intro ms mid raw m hm
    simp only [update_mechanic, hm]

/-- Witness for C4's amended theorem at a concrete input. -/
theorem c4_mechanic_writes_always_fail_witness :
    loadMechanic { name := some "Bob", email := some "a@x.com" } =
      some { name := "Bob", email := "a@x.com" } ∧
    getMechanic [{ id := 1, name := "Ann", email := "A@x.com" }] 1 =
      some { id := 1, name := "Ann", email := "A@x.com" } ∧
    create_mechanic [{ id := 1, name := "Ann", email := "A@x.com" }]
        (some { name := some "Bob", email := some "a@x.com" }) =
      (400, .exceptMsg mechanicSubscriptError,
        [{ id := 1, name := "Ann", email := "A@x.com" }]) ∧
    update_mechanic [{ id := 1, name := "Ann", email := "A@x.com" }] 1
        (some { name := some "Bob" }) =
      (400, .exceptMsg mechanicItemsError,
        [{ id := 1, name := "Ann", email := "A@x.com" }]) :=
  ⟨by decide, by decide,
    c4_mechanic_writes_always_fail.1 [{ id := 1, name := "Ann", email := "A@x.com" }]
      { name := some "Bob", email := some "a@x.com" }
      { name := "Bob", email := "a@x.com" } (by decide),
    c4_mechanic_writes_always_fail.2 [{ id := 1, name := "Ann", email := "A@x.com" }] 1
      { name := some "Bob" } { id := 1, name := "Ann", email := "A@x.com" } (by decide)⟩

/-! ## Claim C5 -/

/-- C5 counterexample: the guard of `app/utils/auth.py` accepts a token from the
header `Basic goodtoken`, which lacks the `Bearer ` marker, and runs the wrapped
operation — extraction takes the second space-separated field whatever the first
field is. -/
theorem c5_counterexample :
    token_required_utils
        (fun tok => if tok = "goodtoken" then some { sub := 1, exp := 10 } else none) 0
        [{ id := 1, first_name := "Ann", last_name := "Lee", email := "a@x.com" }]
        (some "Basic goodtoken") (fun cid => cid) = .run 1 := by decide

/-- C5 amended: only the guard of `app/auth.py` requires the exact
`Bearer <token>` shape (any header without the `Bearer ` marker, or no header,
is rejected with 401 before the wrapped operation runs).  The guard of
`app/utils/auth.py` does not check the marker: it takes the second
space-separated field of the header as the token whatever the first field is —
so `Basic <valid-token>` passes it — and rejects with 401 only a missing
header, a header without a second field, an empty second field, or a token that
fails validation or principal resolution. -/
theorem c5_bearer_extraction_amended :
    (∀ (α : Type) (parse : String → Option JwtClaims) (now : Int)
       (cs : List Customer) (h : String) (f : Nat → α),
      headMatches h.data "Bearer ".data = false →
      token_required_app parse now cs (some h) f =
        .reject 401 [("message", "Token is missing!")]) ∧
    (∀ (α : Type) (parse : String → Option JwtClaims) (now : Int)
       (cs : List Customer) (f : Nat → α),
      token_required_app parse now cs none f =
        .reject 401 [("message", "Token is missing!")]) ∧
    (∀ (α : Type) (parse : String → Option JwtClaims) (now : Int)
       (cs : List Customer) (f : Nat → α),
      token_required_utils parse now cs none f =
        .reject 401 [("error", "Token is missing"),
          ("message", "Please provide a valid authorization token")]) ∧
    (∀ (α : Type) (parse : String → Option JwtClaims) (now : Int)
       (cs : List Customer) (h : String) (f : Nat → α),
      (pySplit h ' ').get? 1 = none →
      token_required_utils parse now cs (some h) f =
        .reject 401 [("error", "Invalid authorization header format"),
          ("message", "Expected format: Bearer <token>")]) ∧
    (token_required_utils
        (fun tok => if tok = "tok2" then some { sub := 1, exp := 10 } else none) 0
        [{ id := 1, first_name := "Ann", last_name := "Lee", email := "a@x.com" }]
        (some "Token tok2") (fun cid => cid) = .run 1) := by
  refine ⟨?_, ?_, ?_, ?_, ?_⟩
  · intro α parse now cs h f hm
    simp only [token_required_app, extractToken_app, hm]
    rfl
  · intro α parse now cs f
    rfl
  · intro α parse now cs f
    rfl
  · intro α parse now cs h f hno
    simp only [token_required_utils, extractToken_utils, hno]
  · decide

/-- Witness for C5's amended theorem at a concrete input. -/
theorem c5_bearer_extraction_amended_witness :
    headMatches ("Basic x" : String).data ("Bearer " : String).data = false ∧
    token_required_app (fun _ => none) 0 [] (some "Basic x") (fun cid => cid) =
      .reject 401 [("message", "Token is missing!")] :=
  ⟨by decide,
    c5_bearer_extraction_amended.1 Nat (fun _ => none) 0 [] "Basic x"
      (fun cid => cid) (by decide)⟩

/-! ## Claim C6 -/

/-- C6: a token whose expiry lies in the past at validation time always fails
validation with the expired-token outcome and the guards reject the request
with 401 — the wrapped operation never runs: `decode_token` returns the
`'Token has expired'` message, the `app/utils/auth.py` guard turns it into a
401 `Token validation failed` response, and the `app/auth.py` guard turns the
jose `ExpiredSignatureError` into a 401 `Token is invalid!` response. -/
theorem c6_expired_token_rejected :
    (∀ (parse : String → Option JwtClaims) (now : Int) (tok : String) (c : JwtClaims),
      parse tok = some c → c.exp < now →
      decode_token parse now tok = .message "Token has expired") ∧
    (∀ (α : Type) (parse : String → Option JwtClaims) (now : Int)
       (cs : List Customer) (header : Option String) (tok : String)
       (c : JwtClaims) (f : Nat → α),
      extractToken_utils header = .ok tok → parse tok = some c → c.exp < now →
      token_required_utils parse now cs header f =
        .reject 401 [("error", "Token validation failed"),
          ("message", "Token has expired")]) ∧
    (∀ (α : Type) (parse : String → Option JwtClaims) (now : Int)
       (cs : List Customer) (header : Option String) (tok : String)
       (c : JwtClaims) (f : Nat → α),
      extractToken_app header = some tok → parse tok = some c → c.exp < now →
      token_required_app parse now cs header f =
        .reject 401 [("message", "Token is invalid!")]) := by
  refine ⟨?_, ?_, ?_⟩
  · intro parse now tok c hp he
    simp only [decode_token, jwtDecode, hp, if_pos he]
  · intro α parse now cs header tok c f hex hp he
    simp only [token_required_utils, hex, decode_token, jwtDecode, hp, if_pos he]
  · intro α parse now cs header tok c f hex hp he
    simp only [token_required_app, hex, jwtDecode, hp, if_pos he]

/-- Witness for C6 at a concrete input: a token that expired at time 5,
validated at time 10. -/
theorem c6_expired_token_rejected_witness :
    extractToken_utils (some "Bearer oldtok") = .ok "oldtok" ∧
    (fun tok => if tok = "oldtok" then some ({ sub := 1, exp := 5 } : JwtClaims)
      else none) "oldtok" = some { sub := 1, exp := 5 } ∧
    (({ sub := 1, exp := 5 } : JwtClaims).exp < (10 : Int)) ∧
    token_required_utils
        (fun tok => if tok = "oldtok" then some { sub := 1, exp := 5 } else none) 10
        [] (some "Bearer oldtok") (fun cid => cid) =
      .reject 401 [("error", "Token validation failed"),
        ("message", "Token has expired")] :=
  ⟨by decide, by decide, by decide,
    c6_expired_token_rejected.2.1 Nat
      (fun tok => if tok = "oldtok" then some { sub := 1, exp := 5 } else none) 10
      [] (some "Bearer oldtok") "oldtok" { sub := 1, exp := 5 } (fun cid => cid)
      (by decide) (by decide) (by decide)⟩

/-! ## Claim C2 -/

/-- C2 (code bug, evaluated at the failing input): customer 1 holds a valid
token and targets customer 2's record.  As wired in the repository —
`token_required` of `app/utils/auth.py` passes the decoded integer id as the
handler's first positional argument `current_customer` — the attribute access
`current_customer.id` raises AttributeError before the ownership comparison, the
blanket `except` rolls back, and both the update and the delete return 500, not
the 403 the spec claims; the stored table is unchanged either way.  Given the
principal object the handler expects (any faithful guard would pass the resolved
Customer), the same lines do return 403 and leave the table unchanged — the
claim describes the intent, the wiring breaks it. -/
theorem c2_ownership_bug_evaluated :
    (update_customer_route (fun p => p)
        (fun tok => if tok = "tokA" then some { sub := 1, exp := 10 } else none) 0
        [{ id := 1, first_name := "Ann", last_name := "Lee", email := "a@x.com" },
         { id := 2, first_name := "Bea", last_name := "Roy", email := "b@x.com" }]
        (some "Bearer tokA") 2 (some {}) =
      .run (500, .serverError "AttributeError on current_customer.id",
        [{ id := 1, first_name := "Ann", last_name := "Lee", email := "a@x.com" },
         { id := 2, first_name := "Bea", last_name := "Roy", email := "b@x.com" }])) ∧
    (delete_customer_route
        (fun tok => if tok = "tokA" then some { sub := 1, exp := 10 } else none) 0
        [{ id := 1, first_name := "Ann", last_name := "Lee", email := "a@x.com" },
         { id := 2, first_name := "Bea", last_name := "Roy", email := "b@x.com" }]
        (some "Bearer tokA") 2 =
      .run (500, .serverError "AttributeError on current_customer.id",
        [{ id := 1, first_name := "Ann", last_name := "Lee", email := "a@x.com" },
         { id := 2, first_name := "Bea", last_name := "Roy", email := "b@x.com" }])) ∧
    (update_customer (fun p => p)
        [{ id := 1, first_name := "Ann", last_name := "Lee", email := "a@x.com" },
         { id := 2, first_name := "Bea", last_name := "Roy", email := "b@x.com" }]
        (PyPrincipal.customerObj
          { id := 1, first_name := "Ann", last_name := "Lee", email := "a@x.com" }) 2
        (some {}) =
      (403, .unauthorized,
        [{ id := 1, first_name := "Ann", last_name := "Lee", email := "a@x.com" },
         { id := 2, first_name := "Bea", last_name := "Roy", email := "b@x.com" }])) ∧
    (delete_customer
        [{ id := 1, first_name := "Ann", last_name := "Lee", email := "a@x.com" },
         { id := 2, first_name := "Bea", last_name := "Roy", email := "b@x.com" }]
        (PyPrincipal.customerObj
          { id := 1, first_name := "Ann", last_name := "Lee", email := "a@x.com" }) 2 =
      (403, .unauthorized,
        [{ id := 1, first_name := "Ann", last_name := "Lee", email := "a@x.com" },
         { id := 2, first_name := "Bea", last_name := "Roy", email := "b@x.com" }])) := by
  refine ⟨by decide, by decide, by decide, by decide⟩

/-! ## Bulk-edit processing lemmas (towards claim C3) -/

/-- The batch lookup only returns a mechanic carrying the looked-up id. -/
theorem mechanicsMapGet_id (ms : List Mechanic) (allIds : List Nat) (i : Nat)
    (m : Mechanic) (h : mechanicsMapGet ms allIds i = some m) : m.id = i := by
  simpa using List.find?_some h

/-- Each removal-loop iteration appends exactly one entry to the log. -/
theorem removeStep_log_one (look : Nat → Option Mechanic) (st : EditState) (i : Nat) :
    ∃ e, (removeStep look st i).log = st.log ++ [e] := by
  unfold removeStep
  rcases look i with _ | m
  · exact ⟨_, rfl⟩
  · dsimp only
    split
    · exact ⟨_, rfl⟩
    · exact ⟨_, rfl⟩

/-- Each addition-loop iteration appends exactly one entry to the log. -/
theorem addStep_log_one (look : Nat → Option Mechanic) (st : EditState) (i : Nat) :
    ∃ e, (addStep look st i).log = st.log ++ [e] := by
  unfold addStep
  rcases look i with _ | m
  · exact ⟨_, rfl⟩
  · dsimp only
    split
    · exact ⟨_, rfl⟩
    · exact ⟨_, rfl⟩

/-- A loop whose body appends one log entry per id appends `ids.length` entries
overall, after the existing entries. -/
theorem foldStep_log {f : EditState → Nat → EditState}
    (hf : ∀ st i, ∃ e, (f st i).log = st.log ++ [e]) :
    ∀ (ids : List Nat) (st : EditState),
      ∃ l, (ids.foldl f st).log = st.log ++ l ∧ l.length = ids.length := by
  intro ids
  induction ids with
  | nil => exact fun st => ⟨[], by simp, rfl⟩
  | cons i rest ih =>
    intro st
    obtain ⟨e, he⟩ := hf st i
    obtain ⟨l, hl, hlen⟩ := ih (f st i)
    refine ⟨e :: l, ?_, by simp [hlen]⟩
    rw [List.foldl_cons, hl, he]
    simp

/-- Entries already in the log survive the removal loop. -/
theorem removeFold_log_mem (look : Nat → Option Mechanic) (ids : List Nat)
    (st : EditState) (e : EditEntry) (he : e ∈ st.log) :
    e ∈ (ids.foldl (removeStep look) st).log := by
  obtain ⟨l, hl, _⟩ := foldStep_log (removeStep_log_one look) ids st
  rw [hl]
  exact List.mem_append_left _ he

/-- Entries already in the log survive the addition loop. -/
theorem addFold_log_mem (look : Nat → Option Mechanic) (ids : List Nat)
    (st : EditState) (e : EditEntry) (he : e ∈ st.log) :
    e ∈ (ids.foldl (addStep look) st).log := by
  obtain ⟨l, hl, _⟩ := foldStep_log (addStep_log_one look) ids st
  rw [hl]
  exact List.mem_append_left _ he

/-- Processing one removal id leaves the membership of every other id in the
ticket's collection unchanged. -/
theorem removeStep_mem_ne (look : Nat → Option Mechanic)
    (hlook : ∀ i m, look i = some m → m.id = i) (st : EditState) (j x : Nat)
    (hne : x ≠ j) :
    (x ∈ (removeStep look st j).assigned ↔ x ∈ st.assigned) := by
  unfold removeStep
  rcases hj : look j with _ | m
  · exact Iff.rfl
  · have hid := hlook j m hj
    dsimp only
    split
    · dsimp only
      rw [hid]
      exact List.mem_erase_of_ne hne
    · exact Iff.rfl

/-- Processing one addition id leaves the membership of every other id in the
ticket's collection unchanged. -/
theorem addStep_mem_ne (look : Nat → Option Mechanic)
    (hlook : ∀ i m, look i = some m → m.id = i) (st : EditState) (j x : Nat)
    (hne : x ≠ j) :
    (x ∈ (addStep look st j).assigned ↔ x ∈ st.assigned) := by
  unfold addStep
  rcases hj : look j with _ | m
  · exact Iff.rfl
  · have hid := hlook j m hj
    dsimp only
    split
    · exact Iff.rfl
    · dsimp only
      rw [hid]
      simp [hne]

/-- The removal loop leaves the membership of unprocessed ids unchanged. -/
theorem removeFold_mem_not_processed (look : Nat → Option Mechanic)
    (hlook : ∀ i m, look i = some m → m.id = i) (ids : List Nat) (st : EditState)
    (x : Nat) (hx : x ∉ ids) :
    (x ∈ (ids.foldl (removeStep look) st).assigned ↔ x ∈ st.assigned) := by
  induction ids generalizing st with
  | nil => exact Iff.rfl
  | cons j rest ih =>
    have hxj : x ≠ j := fun h => hx (h ▸ List.mem_cons_self j rest)
    have hxr : x ∉ rest := fun h => hx (List.mem_cons_of_mem _ h)
    rw [List.foldl_cons]
    exact (ih (removeStep look st j) hxr).trans (removeStep_mem_ne look hlook st j x hxj)

/-- The removal loop only ever shrinks the ticket's collection. -/
theorem removeStep_assigned_sub (look : Nat → Option Mechanic) (st : EditState)
    (j x : Nat) (h : x ∈ (removeStep look st j).assigned) : x ∈ st.assigned := by
  revert h
  unfold removeStep
  rcases look j with _ | m
  · exact id
  · dsimp only
    split
    · exact fun h => List.mem_of_mem_erase h
    · exact id

/-- The removal loop only ever shrinks the ticket's collection. -/
theorem removeFold_assigned_sub (look : Nat → Option Mechanic) (ids : List Nat) :
    ∀ (st : EditState) (x : Nat),
      x ∈ (ids.foldl (removeStep look) st).assigned → x ∈ st.assigned := by
  induction ids with
  | nil => exact fun st x => id
  | cons j rest ih =>
    intro st x h
    rw [List.foldl_cons] at h
    exact removeStep_assigned_sub look st j x (ih _ x h)

/-- The addition loop only ever grows the ticket's collection. -/
theorem addStep_assigned_sup (look : Nat → Option Mechanic) (st : EditState)
    (j x : Nat) (h : x ∈ st.assigned) : x ∈ (addStep look st j).assigned := by
  unfold addStep
  rcases look j with _ | m
  · exact h
  · dsimp only
    split
    · exact h
    · exact List.mem_append_left _ h

/-- The addition loop only ever grows the ticket's collection. -/
theorem addFold_assigned_sup (look : Nat → Option Mechanic) (ids : List Nat) :
    ∀ (st : EditState) (x : Nat),
      x ∈ st.assigned → x ∈ (ids.foldl (addStep look) st).assigned := by
  induction ids with
  | nil => exact fun st x => id
  | cons j rest ih =>
    intro st x h
    rw [List.foldl_cons]
    exact ih _ x (addStep_assigned_sup look st j x h)

/-- One removal step preserves distinctness of the collection. -/
theorem removeStep_nodup (look : Nat → Option Mechanic) (st : EditState) (j : Nat)
    (h : st.assigned.Nodup) : (removeStep look st j).assigned.Nodup := by
  unfold removeStep
  rcases look j with _ | m
  · exact h
  · dsimp only
    split
    · exact h.erase _
    · exact h

/-- What the removal loop records and does for each processed id: an unknown id
yields its not-found error entry; a known id present in the collection yields
the removed entry and ends up outside the collection; a known id absent from
the collection yields the not-assigned error entry. -/
theorem removeFold_processes (look : Nat → Option Mechanic)
    (hlook : ∀ i m, look i = some m → m.id = i) :
    ∀ (ids : List Nat) (st : EditState), ids.Nodup → st.assigned.Nodup →
      ∀ i ∈ ids,
      (look i = none →
        EditEntry.notFoundRemoval i ∈ (ids.foldl (removeStep look) st).log) ∧
      (∀ m, look i = some m → i ∈ st.assigned →
        EditEntry.removedOk m.name i ∈ (ids.foldl (removeStep look) st).log ∧
        i ∉ (ids.foldl (removeStep look) st).assigned) ∧
      (∀ m, look i = some m → i ∉ st.assigned →
        EditEntry.notAssigned m.name i ∈ (ids.foldl (removeStep look) st).log) := by
  intro ids
  induction ids with
  | nil => intro st _ _ i hi; cases hi
  | cons j rest ih =>
    intro st hnd hnda i hi
    rw [List.nodup_cons] at hnd
    obtain ⟨hjr, hndr⟩ := hnd
    rw [List.foldl_cons]
    rcases List.mem_cons.mp hi with heq | hmem
    · subst heq
      refine ⟨?_, ?_, ?_⟩
      · intro hnone
        apply removeFold_log_mem
        unfold removeStep
        rw [hnone]
        exact List.mem_append_right _ (by simp)
      · intro m hm hin
        have hid := hlook i m hm
        have hcond : m.id ∈ st.assigned := by rw [hid]; exact hin
        constructor
        · apply removeFold_log_mem
          unfold removeStep
          rw [hm]
          dsimp only
          rw [if_pos hcond]
          exact List.mem_append_right _ (by simp)
        · intro hmem'
          have hstep : i ∈ (removeStep look st i).assigned :=
            removeFold_assigned_sub look rest _ i hmem'
          revert hstep
          unfold removeStep
          rw [hm]
          dsimp only
          rw [if_pos hcond]
          dsimp only
          rw [hid]
          exact fun hc => absurd hc ((List.Nodup.mem_erase_iff hnda).not.mpr
            (by simp))
      · intro m hm hnotin
        have hid := hlook i m hm
        have hcond : m.id ∉ st.assigned := by rw [hid]; exact hnotin
        apply removeFold_log_mem
        unfold removeStep
        rw [hm]
        dsimp only
        rw [if_neg hcond]
        exact List.mem_append_right _ (by simp)
    · have hij : i ≠ j := fun h => hjr (h ▸ hmem)
      have ihh := ih (removeStep look st j) hndr
        (removeStep_nodup look st j hnda) i hmem
      have htrans := removeStep_mem_ne look hlook st j i hij
      refine ⟨ihh.1, ?_, ?_⟩
      · intro m hm hin
        exact ihh.2.1 m hm (htrans.mpr hin)
      · intro m hm hnotin
        exact ihh.2.2 m hm (fun h => hnotin (htrans.mp h))

/-- What the addition loop records and does for each processed id: an unknown id
yields its not-found error entry; a known id absent from the collection (after
all removals) yields the added entry and ends up inside the collection; a known
id already present yields the already-assigned error entry. -/
theorem addFold_processes (look : Nat → Option Mechanic)
    (hlook : ∀ i m, look i = some m → m.id = i) :
    ∀ (ids : List Nat) (st : EditState), ids.Nodup →
      ∀ i ∈ ids,
      (look i = none →
        EditEntry.notFoundAddition i ∈ (ids.foldl (addStep look) st).log) ∧
      (∀ m, look i = some m → i ∉ st.assigned →
        EditEntry.addedOk m.name i ∈ (ids.foldl (addStep look) st).log ∧
        i ∈ (ids.foldl (addStep look) st).assigned) ∧
      (∀ m, look i = some m → i ∈ st.assigned →
        EditEntry.alreadyAssigned m.name i ∈ (ids.foldl (addStep look) st).log) := by
  intro ids
  induction ids with
  | nil => intro st _ i hi; cases hi
  | cons j rest ih =>
    intro st hnd i hi
    rw [List.nodup_cons] at hnd
    obtain ⟨hjr, hndr⟩ := hnd
    rw [List.foldl_cons]
    rcases List.mem_cons.mp hi with heq | hmem
    · subst heq
      refine ⟨?_, ?_, ?_⟩
      · intro hnone
        apply addFold_log_mem
        unfold addStep
        rw [hnone]
        exact List.mem_append_right _ (by simp)
      · intro m hm hnotin
        have hid := hlook i m hm
        have hcond : m.id ∉ st.assigned := by rw [hid]; exact hnotin
        constructor
        · apply addFold_log_mem
          unfold addStep
          rw [hm]
          dsimp only
          rw [if_neg hcond]
          exact List.mem_append_right _ (by simp)
        · apply addFold_assigned_sup
          unfold addStep
          rw [hm]
          dsimp only
          rw [if_neg hcond]
          dsimp only
          rw [hid]
          simp
      · intro m hm hin
        have hid := hlook i m hm
        have hcond : m.id ∈ st.assigned := by rw [hid]; exact hin
        apply addFold_log_mem
        unfold addStep
        rw [hm]
        dsimp only
        rw [if_pos hcond]
        exact List.mem_append_right _ (by simp)
    · have hij : i ≠ j := fun h => hjr (h ▸ hmem)
      have ihh := ih (addStep look st j) hndr i hmem
      have htrans := addStep_mem_ne look hlook st j i hij
      refine ⟨ihh.1, ?_, ?_⟩
      · intro m hm hnotin
        exact ihh.2.1 m hm (fun h => hnotin (htrans.mp h))
      · intro m hm hin
        exact ihh.2.2 m hm (htrans.mpr hin)

/-- Splitting a list into the entries satisfying a predicate and the rest
preserves the total length. -/
theorem filterLengthPartition {α : Type} (p : α → Bool) (l : List α) :
    (l.filter p).length + (l.filter (fun a => !p a)).length = l.length := by
  induction l with
  | nil => rfl
  | cons a l ih =>
    by_cases h : p a <;> simp [List.filter_cons, h, ← ih] <;> omega

/-! ## Claim C3 -/

/-- C3: the bulk edit processes all removals first, then all additions, each id
resolved through the single batch lookup `editLook` over `add_ids ∪ remove_ids`;
for each processed id exactly one outcome is recorded and the operation never
aborts (the recorded outcomes number `|remove_ids| + |add_ids|`); an unknown id
is recorded as its not-found error string; a known id already in its desired
state (absent when removing, present — after all removals — when adding) is
recorded as an error string; every other id's change is applied to the
collection and recorded in the changes-made list. -/
theorem c3_bulk_edit_processing (ms : List Mechanic) (ts : List ServiceTicket)
    (ticket_id : Nat) (b : EditBody) (t : ServiceTicket)
    (ht : getTicket ts ticket_id = some t)
    (hnd : t.mechanics.Nodup)
    (hne : ¬(b.add_ids.dedup = [] ∧ b.remove_ids.dedup = [])) :
    ∃ status : Nat,
      edit_ticket_mechanics ms ts ticket_id (some b) =
        (status,
          .done (changesOf (editProcess ms t.mechanics b))
            (errorsOf (editProcess ms t.mechanics b))
            (editProcess ms t.mechanics b).assigned,
          replaceTicket ts ticket_id
            { t with mechanics := (editProcess ms t.mechanics b).assigned }) ∧
      (changesOf (editProcess ms t.mechanics b)).length +
          (errorsOf (editProcess ms t.mechanics b)).length =
        b.remove_ids.dedup.length + b.add_ids.dedup.length ∧
      (∀ i ∈ b.remove_ids.dedup, editLook ms b i = none →
        renderEntry (.notFoundRemoval i) ∈ errorsOf (editProcess ms t.mechanics b)) ∧
      (∀ i ∈ b.remove_ids.dedup, ∀ m : Mechanic, editLook ms b i = some m →
        i ∉ t.mechanics →
        renderEntry (.notAssigned m.name i) ∈ errorsOf (editProcess ms t.mechanics b)) ∧
      (∀ i ∈ b.remove_ids.dedup, ∀ m : Mechanic, editLook ms b i = some m →
        i ∈ t.mechanics →
        renderEntry (.removedOk m.name i) ∈ changesOf (editProcess ms t.mechanics b) ∧
        i ∉ (editRemovalPhase (editLook ms b) t.mechanics b.remove_ids.dedup).assigned) ∧
      (∀ i ∈ b.add_ids.dedup, editLook ms b i = none →
        renderEntry (.notFoundAddition i) ∈ errorsOf (editProcess ms t.mechanics b)) ∧
      (∀ i ∈ b.add_ids.dedup, ∀ m : Mechanic, editLook ms b i = some m →
        i ∉ (editRemovalPhase (editLook ms b) t.mechanics b.remove_ids.dedup).assigned →
        renderEntry (.addedOk m.name i) ∈ changesOf (editProcess ms t.mechanics b) ∧
        i ∈ (editProcess ms t.mechanics b).assigned) ∧
      (∀ i ∈ b.add_ids.dedup, ∀ m : Mechanic, editLook ms b i = some m →
        i ∈ (editRemovalPhase (editLook ms b) t.mechanics b.remove_ids.dedup).assigned →
        renderEntry (.alreadyAssigned m.name i) ∈ errorsOf (editProcess ms t.mechanics b)) := by
  have hlook : ∀ i m, editLook ms b i = some m → m.id = i :=
    fun i m h => mechanicsMapGet_id _ _ _ _ h
  have hndr : b.remove_ids.dedup.Nodup := List.nodup_dedup _
  have hnda : b.add_ids.dedup.Nodup := List.nodup_dedup _
  have hmid : editRemovalPhase (editLook ms b) t.mechanics b.remove_ids.dedup =
      b.remove_ids.dedup.foldl (removeStep (editLook ms b)) ⟨t.mechanics, []⟩ := rfl
  have hfin : editProcess ms t.mechanics b =
      b.add_ids.dedup.foldl (addStep (editLook ms b))
        (editRemovalPhase (editLook ms b) t.mechanics b.remove_ids.dedup) := rfl
  have hremove := removeFold_processes (editLook ms b) hlook b.remove_ids.dedup
    ⟨t.mechanics, []⟩ hndr hnd
  have hadd := addFold_processes (editLook ms b) hlook b.add_ids.dedup
    (editRemovalPhase (editLook ms b) t.mechanics b.remove_ids.dedup) hnda
  refine ⟨(if errorsOf (editProcess ms t.mechanics b) = [] then 200
      else if ¬ changesOf (editProcess ms t.mechanics b) = [] then 207 else 400),
    ?_, ?_, ?_, ?_, ?_, ?_, ?_, ?_⟩
  · simp only [edit_ticket_mechanics, ht, if_neg hne]
  · obtain ⟨l1, hl1, hlen1⟩ := foldStep_log (removeStep_log_one (editLook ms b))
      b.remove_ids.dedup ⟨t.mechanics, []⟩
    obtain ⟨l2, hl2, hlen2⟩ := foldStep_log (addStep_log_one (editLook ms b))
      b.add_ids.dedup (editRemovalPhase (editLook ms b) t.mechanics b.remove_ids.dedup)
    have hmidlog : (editRemovalPhase (editLook ms b) t.mechanics
        b.remove_ids.dedup).log = l1 := by
      rw [hmid, hl1]
      simp
    have hfinlog : (editProcess ms t.mechanics b).log = l1 ++ l2 := by
      rw [hfin, hl2, hmidlog]
    rw [changesOf, errorsOf, List.length_map, List.length_map,
      filterLengthPartition (fun e => isChange e) (editProcess ms t.mechanics b).log,
      hfinlog, List.length_append, hlen1, hlen2]
  · intro i hi hnone
    have h := (hremove i hi).1 hnone
    rw [← hmid] at h
    have h2 : EditEntry.notFoundRemoval i ∈ (editProcess ms t.mechanics b).log := by
      rw [hfin]
      exact addFold_log_mem _ _ _ _ h
    exact List.mem_map_of_mem _ (List.mem_filter.mpr ⟨h2, by rfl⟩)
  · intro i hi m hm hnotin
    have h := (hremove i hi).2.2 m hm hnotin
    rw [← hmid] at h
    have h2 : EditEntry.notAssigned m.name i ∈ (editProcess ms t.mechanics b).log := by
      rw [hfin]
      exact addFold_log_mem _ _ _ _ h
    exact List.mem_map_of_mem _ (List.mem_filter.mpr ⟨h2, by rfl⟩)
  · intro i hi m hm hin
    have h := (hremove i hi).2.1 m hm hin
    rw [← hmid] at h
    constructor
    · have h2 : EditEntry.removedOk m.name i ∈ (editProcess ms t.mechanics b).log := by
        rw [hfin]
        exact addFold_log_mem _ _ _ _ h.1
      exact List.mem_map_of_mem _ (List.mem_filter.mpr ⟨h2, by rfl⟩)
    · exact h.2
  · intro i hi hnone
    have h := (hadd i hi).1 hnone
    rw [← hfin] at h
    exact List.mem_map_of_mem _ (List.mem_filter.mpr ⟨h, by rfl⟩)
  · intro i hi m hm hnotin
    have h := (hadd i hi).2.1 m hm hnotin
    rw [← hfin] at h
    exact ⟨List.mem_map_of_mem _ (List.mem_filter.mpr ⟨h.1, by rfl⟩), h.2⟩
  · intro i hi m hm hin
    have h := (hadd i hi).2.2 m hm hin
    rw [← hfin] at h
    exact List.mem_map_of_mem _ (List.mem_filter.mpr ⟨h, by rfl⟩)

/-- Witness for C3 at a concrete input: ticket 7 has mechanic 1 assigned; the
edit removes ids 1 and 99 (99 unknown) and adds id 2. -/
theorem c3_bulk_edit_processing_witness :
    getTicket [{ id := 7, customer_id := 1, mechanics := [1] }] 7 =
      some { id := 7, customer_id := 1, mechanics := [1] } ∧
    ({ id := 7, customer_id := 1, mechanics := [1] } : ServiceTicket).mechanics.Nodup ∧
    ¬(({ add_ids := [2], remove_ids := [1, 99] } : EditBody).add_ids.dedup = [] ∧
      ({ add_ids := [2], remove_ids := [1, 99] } : EditBody).remove_ids.dedup = []) ∧
    ∃ status : Nat,
      edit_ticket_mechanics
          [{ id := 1, name := "Mike", email := "m@x.com" },
           { id := 2, name := "Neil", email := "n@x.com" }]
          [{ id := 7, customer_id := 1, mechanics := [1] }] 7
          (some { add_ids := [2], remove_ids := [1, 99] }) =
        (status,
          .done
            (changesOf (editProcess
              [{ id := 1, name := "Mike", email := "m@x.com" },
               { id := 2, name := "Neil", email := "n@x.com" }] [1]
              { add_ids := [2], remove_ids := [1, 99] }))
            (errorsOf (editProcess
              [{ id := 1, name := "Mike", email := "m@x.com" },
               { id := 2, name := "Neil", email := "n@x.com" }] [1]
              { add_ids := [2], remove_ids := [1, 99] }))
            (editProcess
              [{ id := 1, name := "Mike", email := "m@x.com" },
               { id := 2, name := "Neil", email := "n@x.com" }] [1]
              { add_ids := [2], remove_ids := [1, 99] }).assigned,
          replaceTicket [{ id := 7, customer_id := 1, mechanics := [1] }] 7
            { id := 7, customer_id := 1,
              mechanics := (editProcess
                [{ id := 1, name := "Mike", email := "m@x.com" },
                 { id := 2, name := "Neil", email := "n@x.com" }] [1]
                { add_ids := [2], remove_ids := [1, 99] }).assigned }) ∧
      (changesOf (editProcess
          [{ id := 1, name := "Mike", email := "m@x.com" },
           { id := 2, name := "Neil", email := "n@x.com" }] [1]
          { add_ids := [2], remove_ids := [1, 99] })).length +
        (errorsOf (editProcess
          [{ id := 1, name := "Mike", email := "m@x.com" },
           { id := 2, name := "Neil", email := "n@x.com" }] [1]
          { add_ids := [2], remove_ids := [1, 99] })).length =
        ([1, 99] : List Nat).dedup.length + ([2] : List Nat).dedup.length ∧
      (∀ i ∈ ([1, 99] : List Nat).dedup,
        editLook
          [{ id := 1, name := "Mike", email := "m@x.com" },
           { id := 2, name := "Neil", email := "n@x.com" }]
          { add_ids := [2], remove_ids := [1, 99] } i = none →
        renderEntry (.notFoundRemoval i) ∈ errorsOf (editProcess
          [{ id := 1, name := "Mike", email := "m@x.com" },
           { id := 2, name := "Neil", email := "n@x.com" }] [1]
          { add_ids := [2], remove_ids := [1, 99] })) ∧
      (∀ i ∈ ([1, 99] : List Nat).dedup, ∀ m : Mechanic,
        editLook
          [{ id := 1, name := "Mike", email := "m@x.com" },
           { id := 2, name := "Neil", email := "n@x.com" }]
          { add_ids := [2], remove_ids := [1, 99] } i = some m →
        i ∉ ([1] : List Nat) →
        renderEntry (.notAssigned m.name i) ∈ errorsOf (editProcess
          [{ id := 1, name := "Mike", email := "m@x.com" },
           { id := 2, name := "Neil", email := "n@x.com" }] [1]
          { add_ids := [2], remove_ids := [1, 99] })) ∧
      (∀ i ∈ ([1, 99] : List Nat).dedup, ∀ m : Mechanic,
        editLook
          [{ id := 1, name := "Mike", email := "m@x.com" },
           { id := 2, name := "Neil", email := "n@x.com" }]
          { add_ids := [2], remove_ids := [1, 99] } i = some m →
        i ∈ ([1] : List Nat) →
        renderEntry (.removedOk m.name i) ∈ changesOf (editProcess
          [{ id := 1, name := "Mike", email := "m@x.com" },
           { id := 2, name := "Neil", email := "n@x.com" }] [1]
          { add_ids := [2], remove_ids := [1, 99] }) ∧
        i ∉ (editRemovalPhase (editLook
            [{ id := 1, name := "Mike", email := "m@x.com" },
             { id := 2, name := "Neil", email := "n@x.com" }]
            { add_ids := [2], remove_ids := [1, 99] }) [1]
          ([1, 99] : List Nat).dedup).assigned) ∧
      (∀ i ∈ ([2] : List Nat).dedup,
        editLook
          [{ id := 1, name := "Mike", email := "m@x.com" },
           { id := 2, name := "Neil", email := "n@x.com" }]
          { add_ids := [2], remove_ids := [1, 99] } i = none →
        renderEntry (.notFoundAddition i) ∈ errorsOf (editProcess
          [{ id := 1, name := "Mike", email := "m@x.com" },
           { id := 2, name := "Neil", email := "n@x.com" }] [1]
          { add_ids := [2], remove_ids := [1, 99] })) ∧
      (∀ i ∈ ([2] : List Nat).dedup, ∀ m : Mechanic,
        editLook
          [{ id := 1, name := "Mike", email := "m@x.com" },
           { id := 2, name := "Neil", email := "n@x.com" }]
          { add_ids := [2], remove_ids := [1, 99] } i = some m →
        i ∉ (editRemovalPhase (editLook
            [{ id := 1, name := "Mike", email := "m@x.com" },
             { id := 2, name := "Neil", email := "n@x.com" }]
            { add_ids := [2], remove_ids := [1, 99] }) [1]
          ([1, 99] : List Nat).dedup).assigned →
        renderEntry (.addedOk m.name i) ∈ changesOf (editProcess
          [{ id := 1, name := "Mike", email := "m@x.com" },
           { id := 2, name := "Neil", email := "n@x.com" }] [1]
          { add_ids := [2], remove_ids := [1, 99] }) ∧
        i ∈ (editProcess
          [{ id := 1, name := "Mike", email := "m@x.com" },
           { id := 2, name := "Neil", email := "n@x.com" }] [1]
          { add_ids := [2], remove_ids := [1, 99] }).assigned) ∧
      (∀ i ∈ ([2] : List Nat).dedup, ∀ m : Mechanic,
        editLook
          [{ id := 1, name := "Mike", email := "m@x.com" },
           { id := 2, name := "Neil", email := "n@x.com" }]
          { add_ids := [2], remove_ids := [1, 99] } i = some m →
        i ∈ (editRemovalPhase (editLook
            [{ id := 1, name := "Mike", email := "m@x.com" },
             { id := 2, name := "Neil", email := "n@x.com" }]
            { add_ids := [2], remove_ids := [1, 99] }) [1]
          ([1, 99] : List Nat).dedup).assigned →
        renderEntry (.alreadyAssigned m.name i) ∈ errorsOf (editProcess
          [{ id := 1, name := "Mike", email := "m@x.com" },
           { id := 2, name := "Neil", email := "n@x.com" }] [1]
          { add_ids := [2], remove_ids := [1, 99] })) :=
  ⟨by decide, by decide, by decide,
    c3_bulk_edit_processing
      [{ id := 1, name := "Mike", email := "m@x.com" },
       { id := 2, name := "Neil", email := "n@x.com" }]
      [{ id := 7, customer_id := 1, mechanics := [1] }] 7
      { add_ids := [2], remove_ids := [1, 99] }
      { id := 7, customer_id := 1, mechanics := [1] }
      (by decide) (by decide) (by decide)⟩

end MechShop
